import Mathlib

/-!
Verification of the scene-graph / terrain / frame-buffer core of the engine.

The Rust sources are embedded shallowly:
* `f32` values are modelled as exact rationals (`ℚ`); every arithmetic
  operation the claims mention (division of counters, additions of positions,
  folds computing maxima) is exact on the inputs at stake, so the rational
  model is faithful for them.
* machine integers (`u32`, `u8`) are modelled as `Nat`; `as u32` casts are
  the saturating-truncation Rust performs on floats.
* panics (failed `assert_eq!`, `u32` underflow, out-of-bounds indexing)
  are modelled by returning `none` from an `Option`-valued function.
* interior mutability (`Cell`) becomes a plain field plus explicit state
  passing: a method that mutated through a `Cell` returns the updated value.

Types that live outside the analyzed sources (math vectors, `Transform`,
`Mat4`, resource handles, the visitor) are given minimal models, each marked
`Modelled from the spec:` in its doc comment.
-/

namespace Fyrox

/-- Two-component vector of `f32`, modelled over `ℚ` (external math library
type `Vector2<f32>`). -/
structure Vector2 where
  x : ℚ
  y : ℚ
deriving DecidableEq, Repr

/-- Three-component vector of `f32`, modelled over `ℚ` (external math library
type `Vector3<f32>` / `Vec3`). -/
structure Vector3 where
  x : ℚ
  y : ℚ
  z : ℚ
deriving DecidableEq, Repr

instance : Add Vector3 where
  add a b := ⟨a.x + b.x, a.y + b.y, a.z + b.z⟩

theorem Vector3.add_def (a b : Vector3) :
    a + b = ⟨a.x + b.x, a.y + b.y, a.z + b.z⟩ := rfl

instance : Inhabited Vector3 := ⟨⟨0, 0, 0⟩⟩

/-- Rust `Vector3::new`. -/
def Vector3.new (x y z : ℚ) : Vector3 := ⟨x, y, z⟩

/-- Modelled from the spec: a generation-checked arena handle (`Handle<T>`
from the external pool module; "a generation-checked reference to an
arena-stored entity"). -/
structure Handle where
  index : Nat
  generation : Nat
deriving DecidableEq, Repr

/-- Rust `Handle::NONE`, the null handle. -/
def Handle.NONE : Handle := ⟨0, 0⟩

/-! ## Scene node module (`src/scene/node.rs`) -/

/-- Modelled from the spec: payload of `NodeKind::Light` (external
`scene::light::Light`); its contents are irrelevant to the claims. -/
structure Light where
  deriving DecidableEq, Repr, Inhabited

/-- Modelled from the spec: payload of `NodeKind::Camera` (external). -/
structure Camera where
  deriving DecidableEq, Repr, Inhabited

/-- Modelled from the spec: payload of `NodeKind::Mesh` (external). -/
structure Mesh where
  deriving DecidableEq, Repr, Inhabited

/-- Modelled from the spec: payload of `NodeKind::Sprite` (external). -/
structure Sprite where
  deriving DecidableEq, Repr, Inhabited

/-- Modelled from the spec: payload of `NodeKind::ParticleSystem` (external). -/
structure ParticleSystem where
  deriving DecidableEq, Repr, Inhabited

/-- Modelled from the spec: external `Transform` (local transform of a node);
opaque payload, only cloned by the operations under scrutiny. -/
structure Transform where
  val : Nat
deriving DecidableEq, Repr

/-- Rust `Transform::identity()`. -/
def Transform.identity : Transform := ⟨0⟩

/-- Modelled from the spec: external 4x4 matrix `Mat4`; opaque payload. -/
structure Mat4 where
  val : Nat
deriving DecidableEq, Repr

/-- Rust `Mat4::identity()`. -/
def Mat4.identity : Mat4 := ⟨0⟩

/-- Modelled from the spec: external model resource (`Arc<Mutex<Model>>`);
the claims only compare the reference, modelled as an id. -/
structure Model where
  val : Nat
deriving DecidableEq, Repr

/-- Rust `NodeKind` — tagged union over the six node kinds (node.rs:19-26). -/
inductive NodeKind where
  | Base : NodeKind
  | Light : Light → NodeKind
  | Camera : Camera → NodeKind
  | Mesh : Mesh → NodeKind
  | Sprite : Sprite → NodeKind
  | ParticleSystem : ParticleSystem → NodeKind
deriving DecidableEq, Repr

/-- Rust `NodeKind::new(id)` (node.rs:56-66): creates a kind from a variant id,
`Err` for unknown ids. The id is a `u8`; the model accepts any `Nat`, the
wildcard arm covers everything above 5 exactly as in the source. -/
def NodeKind.new (id : Nat) : Except String NodeKind :=
  match id with
  | 0 => .ok .Base
  | 1 => .ok (.Light default)
  | 2 => .ok (.Camera default)
  | 3 => .ok (.Mesh default)
  | 4 => .ok (.Sprite default)
  | 5 => .ok (.ParticleSystem default)
  | _ => .error ("Invalid node kind " ++ toString id)

/-- Rust `NodeKind::id()` (node.rs:69-78): the variant id. -/
def NodeKind.id : NodeKind → Nat
  | .Base => 0
  | .Light _ => 1
  | .Camera _ => 2
  | .Mesh _ => 3
  | .Sprite _ => 4
  | .ParticleSystem _ => 5

/-- Rust `Node` (node.rs:81-102). -/
structure Node where
  name : String
  kind : NodeKind
  local_transform : Transform
  visibility : Bool
  global_visibility : Bool
  parent : Handle
  children : List Handle
  global_transform : Mat4
  inv_bind_pose_transform : Mat4
  resource : Option Model
  original : Handle
  is_resource_instance : Bool
deriving DecidableEq, Repr

/-- Rust `Node::new(kind)` (node.rs:124-139). -/
def Node.new (kind : NodeKind) : Node where
  kind := kind
  name := ""
  children := []
  parent := Handle.NONE
  visibility := true
  global_visibility := true
  local_transform := Transform.identity
  global_transform := Mat4.identity
  inv_bind_pose_transform := Mat4.identity
  resource := none
  original := Handle.NONE
  is_resource_instance := false

/-- Rust `Node::get_resource()` (node.rs:181-183): clones the shared reference. -/
def Node.get_resource (n : Node) : Option Model := n.resource

/-- Rust `Node::make_copy(original)` (node.rs:143-158): copies a node's data but
resets `children`/`parent` and records the `original` handle. -/
def Node.make_copy (n : Node) (original : Handle) : Node where
  kind := n.kind
  name := n.name
  local_transform := n.local_transform
  global_transform := n.global_transform
  visibility := n.visibility
  global_visibility := n.global_visibility
  inv_bind_pose_transform := n.inv_bind_pose_transform
  children := []
  parent := Handle.NONE
  resource := n.get_resource
  is_resource_instance := n.is_resource_instance
  original := original

/-- Modelled from the spec: the external visitor ("named-field visit
contract" of the serialization boundary). Only the pieces `Node::visit`
needs are kept: whether we are reading, and the stored kind id an earlier
write put into the region. The leaf `visit` combinators for the other
fields are external and cannot fail on kind data, so they are identity
here. -/
structure Visitor where
  is_reading : Bool
  stored_kind_id : Nat
deriving DecidableEq, Repr

/-- Rust `Node::visit` (node.rs:312-331), reading path for the kind tag: when the
visitor is reading, the stored kind id replaces the node's kind through
`NodeKind::new(kind_id)?`, propagating the error with `?`. -/
def Node.visit (n : Node) (v : Visitor) : Except String Node :=
  if v.is_reading then
    match NodeKind.new v.stored_kind_id with
    | .error e => .error e
    | .ok k => .ok { n with kind := k }
  else
    .ok n

/-! ## Terrain module (`src/scene/terrain.rs`) -/

/-- Rust `TextureKind` (external `resource::texture`); only the `Rectangle`
variant is used by this module. -/
inductive TextureKind where
  | Rectangle (width : Nat) (height : Nat)
deriving DecidableEq, Repr

/-- Rust `TexturePixelKind` (external); only `R8` is used by this module. -/
inductive TexturePixelKind where
  | R8
deriving DecidableEq, Repr

/-- Number of bytes a pixel of this kind occupies. -/
def TexturePixelKind.bytesPerPixel : TexturePixelKind → Nat
  | .R8 => 1

/-- Modelled from the spec: the external shared texture resource
(`resource::texture::Texture`). `key` is the identity of the shared
resource (the value `Texture::key()` returns), used by `Layer::batch_id`. -/
structure Texture where
  kind : TextureKind
  pixel_kind : TexturePixelKind
  bytes : List Nat
  key : Nat
deriving DecidableEq, Repr

/-- Modelled from the spec: external `Texture::from_bytes` — creates a
texture when the byte count matches the kind's size, otherwise `None`. -/
def Texture.from_bytes (kind : TextureKind) (pk : TexturePixelKind)
    (bytes : List Nat) : Option Texture :=
  match kind with
  | .Rectangle w h =>
      if bytes.length = w * h * pk.bytesPerPixel then
        some ⟨kind, pk, bytes, 0⟩
      else
        none

/-- Modelled from the spec: the initial state of
`std::collections::hash_map::DefaultHasher::new()` — a deterministic hash
with fixed keys. The hasher is modelled as a 64-bit FNV-style fold; the
claims only need determinism and which inputs are fed to it. -/
def hasherInit : Nat := 14695981039346656037

/-- Modelled from the spec: feeding one value into the hasher state
(`Hash::hash` of a `u64` followed by the hasher's mixing). -/
def hashWrite (state w : Nat) : Nat :=
  ((state + w) * 1099511628211) % 2 ^ 64

/-- Rust `Layer` (terrain.rs:27-34): up to six optional texture references. -/
structure Layer where
  diffuse_texture : Option Texture
  normal_texture : Option Texture
  specular_texture : Option Texture
  roughness_texture : Option Texture
  height_texture : Option Texture
  mask : Option Texture
deriving DecidableEq, Repr

/-- Rust `Layer::batch_id(data_key)` (terrain.rs:37-56): hashes the data key and
then the keys of the present textures among diffuse/normal/specular/
roughness/height — the mask is not hashed. -/
def Layer.batch_id (l : Layer) (data_key : Nat) : Nat :=
  let state := hashWrite hasherInit data_key
  (([l.diffuse_texture, l.normal_texture, l.specular_texture,
     l.roughness_texture, l.height_texture].filterMap id).foldl
    (fun st t => hashWrite st t.key) state)

/-- Four-component vector (external `Vector4<f32>`), used for vertex tangents. -/
structure Vector4 where
  x : ℚ
  y : ℚ
  z : ℚ
  w : ℚ
deriving DecidableEq, Repr

/-- External `StaticVertex` (scene::mesh::vertex): position, texture
coordinate, normal and tangent. -/
structure StaticVertex where
  position : Vector3
  tex_coord : Vector2
  normal : Vector3
  tangent : Vector4
deriving DecidableEq, Repr

instance : Inhabited StaticVertex :=
  ⟨⟨⟨0, 0, 0⟩, ⟨0, 0⟩, ⟨0, 0, 0⟩, ⟨0, 0, 0, 0⟩⟩⟩

/-- External `TriangleDefinition` — a triple of vertex indices. -/
structure TriangleDefinition where
  a : Nat
  b : Nat
  c : Nat
deriving DecidableEq, Repr

instance : Inhabited TriangleDefinition := ⟨⟨0, 0, 0⟩⟩

/-- External `SurfaceData` (scene::mesh::surface): a vertex buffer plus a
triangle list.  The shared `Arc<RwLock<..>>` wrapper is modelled away: the
claims are single-threaded, so the lock discipline never interleaves. -/
structure SurfaceData where
  vertex_buffer : List StaticVertex
  triangles : List TriangleDefinition
deriving DecidableEq, Repr

/-- Component-wise vector difference, for triangle edge vectors. -/
def Vector3.sub (p q : Vector3) : Vector3 := ⟨p.x - q.x, p.y - q.y, p.z - q.z⟩

/-- Cross product, for triangle face normals. -/
def Vector3.cross (p q : Vector3) : Vector3 :=
  ⟨p.y * q.z - p.z * q.y, p.z * q.x - p.x * q.z, p.x * q.y - p.y * q.x⟩

/-- Face normal of one triangle of a surface (unnormalized; `ℚ` has no
square root, and no claim inspects the normal's value). -/
def faceNormal (vb : List StaticVertex) (t : TriangleDefinition) : Vector3 :=
  let p0 := (vb.getD t.a default).position
  let p1 := (vb.getD t.b default).position
  let p2 := (vb.getD t.c default).position
  Vector3.cross (p1.sub p0) (p2.sub p0)

/-- Accumulated normal of vertex `i`: sum of the face normals of the
triangles that reference it. -/
def vertexNormal (sd : SurfaceData) (i : Nat) : Vector3 :=
  (sd.triangles.filter (fun t => t.a == i || t.b == i || t.c == i)).foldl
    (fun acc t => acc + faceNormal sd.vertex_buffer t) ⟨0, 0, 0⟩

/-- Modelled from the spec: external `SurfaceData::calculate_normals` —
"normal … recomputation from the finished triangle soup".  Recomputes every
vertex normal from the triangle list; positions, texture coordinates and
triangles are untouched. -/
def SurfaceData.calculate_normals (sd : SurfaceData) : SurfaceData :=
  { sd with
    vertex_buffer := (List.range sd.vertex_buffer.length).map fun i =>
      { sd.vertex_buffer.getD i default with normal := vertexNormal sd i } }

/-- Modelled from the spec: external `SurfaceData::calculate_tangents` —
"tangent recomputation from the finished triangle soup".  Derives each
tangent deterministically from the recomputed normal; positions, texture
coordinates, normals and triangles are untouched. -/
def SurfaceData.calculate_tangents (sd : SurfaceData) : SurfaceData :=
  { sd with
    vertex_buffer := (List.range sd.vertex_buffer.length).map fun i =>
      let v := sd.vertex_buffer.getD i default
      { v with tangent := ⟨v.normal.y, v.normal.z, v.normal.x, 1⟩ } }

/-- Rust `Chunk` (terrain.rs:60-74).  `Cell<bool>` dirty flag becomes a plain
field; the method that mutated it returns the updated chunk. -/
structure Chunk where
  heightmap : List ℚ
  layers : List Layer
  position : Vector3
  width : ℚ
  length : ℚ
  width_point_count : Nat
  length_point_count : Nat
  surface_data : SurfaceData
  dirty : Bool
deriving DecidableEq, Repr

/-- One vertex of the regenerated grid (terrain.rs:86-109): grid point
`(x, z)` is placed at `position + (kx*width, height, kz*length)` with
texture coordinate `(10*kx, 10*kz)`, where `kx = x/(W-1)`, `kz = z/(L-1)`
and `height = heightmap[z*W + x]`.  Normals and tangents are zeroed here
and recomputed afterwards, as in the source. -/
def Chunk.vertexAt (c : Chunk) (x z : Nat) : StaticVertex :=
  let kz : ℚ := (z : ℚ) / ((c.length_point_count - 1 : Nat) : ℚ)
  let pz := c.position.z + kz * c.length
  let height := c.heightmap.getD (z * c.width_point_count + x) 0
  let kx : ℚ := (x : ℚ) / ((c.width_point_count - 1 : Nat) : ℚ)
  let px := c.position.x + kx * c.width
  let py := c.position.y + height
  { position := ⟨px, py, pz⟩
    tex_coord := ⟨10 * kx, 10 * kz⟩
    normal := ⟨0, 0, 0⟩
    tangent := ⟨0, 0, 0, 0⟩ }

/-- The two triangles of quad cell `(x, z)` (terrain.rs:113-129). -/
def Chunk.cellTriangles (c : Chunk) (x z : Nat) : List TriangleDefinition :=
  let z_next := z + 1
  let x_next := x + 1
  let i0 := z * c.width_point_count + x
  let i1 := z_next * c.width_point_count + x
  let i2 := z_next * c.width_point_count + x_next
  let i3 := z * c.width_point_count + x_next
  [⟨i0, i1, i2⟩, ⟨i2, i3, i0⟩]

/-- The surface data regenerated by the two loop nests of `Chunk::update`
(terrain.rs:85-130), starting from the cleared buffer: `L` rows of `W`
vertices (row-major), then two triangles per quad cell. -/
def Chunk.generatedSurface (c : Chunk) : SurfaceData :=
  { vertex_buffer :=
      (List.range c.length_point_count).flatMap fun z =>
        (List.range c.width_point_count).map fun x => c.vertexAt x z
    triangles :=
      (List.range (c.length_point_count - 1)).flatMap fun z =>
        (List.range (c.width_point_count - 1)).flatMap fun x =>
          c.cellTriangles x z }

/-- Rust `Chunk::update` (terrain.rs:77-137).  `none` models a panic: the two
`assert_eq!(count & 1, 0)` assertions, the `u32` underflow of `count - 1`
in the index-loop bounds when a point count is `0`, and an out-of-bounds
heightmap access (`heightmap[z*W+x]` needs `W*L <= heightmap.len()`).
On the non-dirty path nothing happens and the chunk is returned as is. -/
def Chunk.update (c : Chunk) : Option Chunk :=
  if c.dirty then
    if c.width_point_count &&& 1 = 0 ∧ c.length_point_count &&& 1 = 0 ∧
        0 < c.width_point_count ∧ 0 < c.length_point_count ∧
        c.width_point_count * c.length_point_count ≤ c.heightmap.length then
      some { c with
        surface_data :=
          (c.generatedSurface.calculate_normals).calculate_tangents
        dirty := false }
    else
      none
  else
    some c

/-- Rust `AxisAlignedBoundingBox` (external math type): min/max corners.  Its
`Default` is the zero box. -/
structure AxisAlignedBoundingBox where
  min : Vector3
  max : Vector3
deriving DecidableEq, Repr

instance : Inhabited AxisAlignedBoundingBox := ⟨⟨⟨0, 0, 0⟩, ⟨0, 0, 0⟩⟩⟩

/-- Rust `AxisAlignedBoundingBox::from_min_max`. -/
def AxisAlignedBoundingBox.from_min_max (min max : Vector3) :
    AxisAlignedBoundingBox := ⟨min, max⟩

/-- Modelled from the spec: the scene `Base` a `Terrain` dereferences to
(`scene/base.rs` is outside the analyzed sources).  Only the global
position, which `Terrain::bounding_box` reads, is modelled. -/
structure Base where
  global_position : Vector3
deriving DecidableEq, Repr

/-- Modelled from the spec: `Base::raw_copy` copies the base's data. -/
def Base.raw_copy (b : Base) : Base := b

/-- Rust `Terrain` (terrain.rs:149-156).  The two `Cell` caches become plain
fields. -/
structure Terrain where
  width : ℚ
  length : ℚ
  base : Base
  chunks : List Chunk
  bounding_box_dirty : Bool
  bounding_box : AxisAlignedBoundingBox
deriving DecidableEq, Repr

/-- Rust `self.global_position()` — through the `Deref` to `Base`. -/
def Terrain.global_position (t : Terrain) : Vector3 := t.base.global_position

/-- Rust `-f32::MAX` exactly: `f32::MAX = (2 - 2^-23) * 2^127`. -/
def negF32MAX : ℚ := -(2 ^ 128 - 2 ^ 104)

/-- The max-height fold of `Terrain::bounding_box` (terrain.rs:198-205):
starts from `-f32::MAX` and scans every height of every chunk in order. -/
def Terrain.maxHeightFold (t : Terrain) : ℚ :=
  (t.chunks.flatMap Chunk.heightmap).foldl
    (fun m h => if m < h then h else m) negF32MAX

/-- All height samples of a terrain, chunk by chunk. -/
def Terrain.heightSamples (t : Terrain) : List ℚ :=
  t.chunks.flatMap Chunk.heightmap

/-- The recomputation branch of `Terrain::bounding_box` (terrain.rs:198-210). -/
def Terrain.computeBoundingBox (t : Terrain) : AxisAlignedBoundingBox :=
  AxisAlignedBoundingBox.from_min_max t.global_position
    (t.global_position + Vector3.new t.width t.maxHeightFold t.length)

/-- Rust `Terrain::bounding_box` (terrain.rs:196-218): recomputes when the cache
is dirty, otherwise serves the cached box.  (The method also stores the
fresh box and clears the flag through `Cell`s; the claims only concern the
returned value.) -/
def Terrain.boundingBox (t : Terrain) : AxisAlignedBoundingBox :=
  if t.bounding_box_dirty then t.computeBoundingBox else t.bounding_box

/-- Rust `Terrain::raw_copy` (terrain.rs:185-194): copies width/length/base/chunks
and resets the bounding-box cache (`dirty := true`, cached box default). -/
def Terrain.raw_copy (t : Terrain) : Terrain :=
  { width := t.width
    length := t.length
    base := t.base.raw_copy
    chunks := t.chunks
    bounding_box_dirty := true
    bounding_box := default }

/-- The loop of `Terrain::update` (terrain.rs:220-224): updates every chunk
in order; a panicking chunk update aborts the whole loop (`none`). -/
def updateChunks : List Chunk → Option (List Chunk)
  | [] => some []
  | c :: rest =>
    match c.update, updateChunks rest with
    | some c', some rest' => some (c' :: rest')
    | _, _ => none

/-- Rust `Terrain::update` (terrain.rs:220-225). -/
def Terrain.update (t : Terrain) : Option Terrain :=
  (updateChunks t.chunks).map fun cs => { t with chunks := cs }

/-- Rust `BrushKind` (terrain.rs:228-231). -/
inductive BrushKind where
  | Circle (radius : ℚ)
  | Rectangle (width : ℚ) (length : ℚ)
deriving DecidableEq, Repr

/-- Rust `BrushMode` (terrain.rs:234-237); the `ArrayVec<usize, 32>` of layer
indices is modelled as a list. -/
inductive BrushMode where
  | ChangeHeight (amount : ℚ)
  | Draw (layers : List Nat)
deriving DecidableEq, Repr

/-- Rust `Brush` (terrain.rs:240-244). -/
structure Brush where
  position : Vector3
  kind : BrushKind
  mode : BrushMode
deriving DecidableEq, Repr

/-- Modelled from the spec: whether a world-space point is inside the
brush's area ("`BrushKind::{Circle,Rectangle}` defines an area"). -/
def BrushKind.contains (k : BrushKind) (bpos p : Vector3) : Bool :=
  match k with
  | .Circle r =>
      decide ((p.x - bpos.x) ^ 2 + (p.z - bpos.z) ^ 2 ≤ r ^ 2)
  | .Rectangle w l =>
      decide (|p.x - bpos.x| ≤ w / 2 ∧ |p.z - bpos.z| ≤ l / 2)

/-- Modelled from the spec: applying a brush to one chunk.  A
`ChangeHeight` brush adds its height delta to every heightmap sample whose
grid point lies in the brush area and marks the chunk dirty; a `Draw`
brush paints layer masks (the mask bytes themselves are outside every
claim and left unchanged) and also marks the chunk dirty. -/
def Chunk.applyBrush (c : Chunk) (b : Brush) : Chunk :=
  match b.mode with
  | .ChangeHeight amount =>
      { c with
        dirty := true
        heightmap := (List.range c.heightmap.length).map fun i =>
          let x := i % c.width_point_count
          let z := i / c.width_point_count
          let h := c.heightmap.getD i 0
          if b.kind.contains b.position (c.vertexAt x z).position then
            h + amount
          else h }
  | .Draw _ => { c with dirty := true }

/-- Modelled from the spec: brush application over the whole terrain —
"Must mark affected chunks dirty and invalidate the bounding box cache." -/
def Terrain.apply_brush (t : Terrain) (b : Brush) : Terrain :=
  { t with
    chunks := t.chunks.map fun c => c.applyBrush b
    bounding_box_dirty := true }

/-- Rust `LayerDefinition` (terrain.rs:246-252). -/
structure LayerDefinition where
  diffuse_texture : Option Texture
  normal_texture : Option Texture
  specular_texture : Option Texture
  roughness_texture : Option Texture
  height_texture : Option Texture
deriving DecidableEq, Repr

/-- Modelled from the spec: `BaseBuilder` (external scene/base.rs); it just
carries the base it will build. -/
structure BaseBuilder where
  base : Base
deriving DecidableEq, Repr

/-- Modelled from the spec: `BaseBuilder::build_base`. -/
def BaseBuilder.build_base (b : BaseBuilder) : Base := b.base

/-- Rust `TerrainBuilder` (terrain.rs:254-263). -/
structure TerrainBuilder where
  base_builder : BaseBuilder
  width : ℚ
  length : ℚ
  mask_resolution : ℚ
  width_chunks : Nat
  length_chunks : Nat
  resolution : ℚ
  layers : List LayerDefinition
deriving DecidableEq, Repr

/-- Rust `make_divisible_by_2` (terrain.rs:265-271). -/
def make_divisible_by_2 (n : Nat) : Nat :=
  if n &&& 1 = 1 then n + 1 else n

/-- Rust's saturating `f32 as u32` cast: truncation toward zero, clamped to
`[0, u32::MAX]`. -/
def f32_as_u32 (q : ℚ) : Nat := min (max ⌊q⌋ 0).toNat (2 ^ 32 - 1)

/-- Rust `TerrainBuilder::new(base_builder)` defaults (terrain.rs:274-285). -/
def TerrainBuilder.new (base_builder : BaseBuilder) : TerrainBuilder where
  base_builder := base_builder
  width := 64
  length := 64
  width_chunks := 2
  length_chunks := 2
  mask_resolution := 16
  resolution := 8
  layers := []

/-- Rust `TerrainBuilder::with_width` (terrain.rs:287-290). -/
def TerrainBuilder.with_width (b : TerrainBuilder) (width : ℚ) :
    TerrainBuilder := { b with width := width }

/-- Rust `TerrainBuilder::with_length` (terrain.rs:292-295). -/
def TerrainBuilder.with_length (b : TerrainBuilder) (length : ℚ) :
    TerrainBuilder := { b with length := length }

/-- Rust `TerrainBuilder::with_mask_resolution` (terrain.rs:297-300). -/
def TerrainBuilder.with_mask_resolution (b : TerrainBuilder) (r : ℚ) :
    TerrainBuilder := { b with mask_resolution := r }

/-- Rust `TerrainBuilder::with_width_chunks` (terrain.rs:302-305). -/
def TerrainBuilder.with_width_chunks (b : TerrainBuilder) (count : Nat) :
    TerrainBuilder := { b with width_chunks := count }

/-- Rust `TerrainBuilder::with_length_chunks` (terrain.rs:307-310). -/
def TerrainBuilder.with_length_chunks (b : TerrainBuilder) (count : Nat) :
    TerrainBuilder := { b with length_chunks := count }

/-- Rust `TerrainBuilder::with_resolution` (terrain.rs:312-315). -/
def TerrainBuilder.with_resolution (b : TerrainBuilder) (r : ℚ) :
    TerrainBuilder := { b with resolution := r }

/-- Rust `TerrainBuilder::with_layers` (terrain.rs:317-320). -/
def TerrainBuilder.with_layers (b : TerrainBuilder)
    (layers : List LayerDefinition) : TerrainBuilder :=
  { b with layers := layers }

/-- Rust `let chunk_length = self.length / self.length_chunks as f32`
(terrain.rs:324). -/
def TerrainBuilder.chunk_length (b : TerrainBuilder) : ℚ :=
  b.length / (b.length_chunks : ℚ)

/-- Rust `let chunk_width = self.width / self.width_chunks as f32`
(terrain.rs:325). -/
def TerrainBuilder.chunk_width (b : TerrainBuilder) : ℚ :=
  b.width / (b.width_chunks : ℚ)

/-- Rust `chunk_length_points` (terrain.rs:326). -/
def TerrainBuilder.chunk_length_points (b : TerrainBuilder) : Nat :=
  make_divisible_by_2 (f32_as_u32 (b.chunk_length * b.resolution))

/-- Rust `chunk_width_points` (terrain.rs:327). -/
def TerrainBuilder.chunk_width_points (b : TerrainBuilder) : Nat :=
  make_divisible_by_2 (f32_as_u32 (b.chunk_width * b.resolution))

/-- Rust `chunk_mask_width` (terrain.rs:328). -/
def TerrainBuilder.chunk_mask_width (b : TerrainBuilder) : Nat :=
  f32_as_u32 (b.chunk_width * b.mask_resolution)

/-- Rust `chunk_mask_height` (terrain.rs:329). -/
def TerrainBuilder.chunk_mask_height (b : TerrainBuilder) : Nat :=
  f32_as_u32 (b.chunk_length * b.mask_resolution)

/-- The chunk pushed for grid cell `(x, z)` (terrain.rs:332-365). -/
def TerrainBuilder.chunkAt (b : TerrainBuilder) (x z : Nat) : Chunk where
  width_point_count := b.chunk_width_points
  length_point_count := b.chunk_length_points
  heightmap := List.replicate (b.chunk_length_points * b.chunk_width_points) 0
  layers := b.layers.map fun definition =>
    { diffuse_texture := definition.diffuse_texture
      normal_texture := definition.normal_texture
      specular_texture := definition.specular_texture
      roughness_texture := definition.roughness_texture
      height_texture := definition.height_texture
      mask := Texture.from_bytes
        (.Rectangle b.chunk_mask_width b.chunk_mask_height)
        .R8
        (List.replicate (b.chunk_mask_width * b.chunk_mask_height) 255) }
  position := Vector3.new ((x : ℚ) * b.chunk_width) 0 ((z : ℚ) * b.chunk_length)
  width := b.chunk_width
  surface_data := ⟨[], []⟩
  dirty := true
  length := b.chunk_length

/-- The chunk of grid cell `(x, z)` after the builder's final
`terrain.update()` regenerated its surface. -/
def TerrainBuilder.builtChunkAt (b : TerrainBuilder) (x z : Nat) : Chunk :=
  { b.chunkAt x z with
    surface_data :=
      (((b.chunkAt x z).generatedSurface).calculate_normals).calculate_tangents
    dirty := false }

/-- The terrain value assembled by `TerrainBuilder::build` before the final
`terrain.update()` (terrain.rs:322-376): the chunk grid is filled z-outer,
x-inner. -/
def TerrainBuilder.preTerrain (b : TerrainBuilder) : Terrain where
  width := b.width
  length := b.length
  base := b.base_builder.build_base
  chunks :=
    (List.range b.length_chunks).flatMap fun z =>
      (List.range b.width_chunks).map fun x => b.chunkAt x z
  bounding_box_dirty := true
  bounding_box := default

/-- Rust `TerrainBuilder::build` (terrain.rs:322-381): assembles the terrain and
runs `terrain.update()`.  `none` models a panic inside a chunk update.
The final `graph.add_node` (the `Graph` is external) only wraps the built
terrain into a node; the built terrain itself is returned here. -/
def TerrainBuilder.build (b : TerrainBuilder) : Option Terrain :=
  b.preTerrain.update

/-- A throwaway terrain for `Option.getD` in witnesses. -/
def emptyTerrain : Terrain where
  width := 0
  length := 0
  base := ⟨⟨0, 0, 0⟩⟩
  chunks := []
  bounding_box_dirty := false
  bounding_box := default

/-! ## Frame buffer module (`fyrox-graphics/src/framebuffer.rs`)

`GpuFrameBufferTrait` (framebuffer.rs:163-246) only declares the operations;
no backend implementation is among the analyzed sources, so the semantics of
`clear` is modelled from the spec ("clears only channels whose argument is
present; acts over all color attachments simultaneously if `color` given;
scoped to `viewport` rectangle. No side effects on untouched channels"). -/

/-- External `Color` (r, g, b, a bytes). -/
structure Color where
  r : Nat
  g : Nat
  b : Nat
  a : Nat
deriving DecidableEq, Repr

/-- External `Rect<i32>` viewport rectangle. -/
structure Rect where
  x : ℤ
  y : ℤ
  w : ℤ
  h : ℤ
deriving DecidableEq, Repr

/-- Modelled from the spec: one texel of a GPU texture with its three
clearable channels (color, depth, stencil). -/
structure Pixel where
  color : Color
  depth : ℚ
  stencil : ℤ
deriving DecidableEq, Repr

/-- Modelled from the spec: external `GpuTexture` — a row-major grid of
texels. -/
structure GpuTexture where
  data : List (List Pixel)
deriving DecidableEq, Repr

/-- Rust `AttachmentKind` (framebuffer.rs:41-49). -/
inductive AttachmentKind where
  | Color
  | DepthStencil
  | Depth
deriving DecidableEq, Repr

/-- Rust `Attachment` (framebuffer.rs:52-57). -/
structure Attachment where
  kind : AttachmentKind
  texture : GpuTexture
deriving DecidableEq, Repr

/-- Rust `Attachment::color` (framebuffer.rs:61-66). -/
def Attachment.color (texture : GpuTexture) : Attachment :=
  ⟨.Color, texture⟩

/-- Rust `Attachment::depth` (framebuffer.rs:69-74). -/
def Attachment.depth (texture : GpuTexture) : Attachment :=
  ⟨.Depth, texture⟩

/-- Rust `Attachment::depth_stencil` (framebuffer.rs:77-82). -/
def Attachment.depth_stencil (texture : GpuTexture) : Attachment :=
  ⟨.DepthStencil, texture⟩

/-- Modelled from the spec: a frame buffer state — "a list of Attachments
… + optional depth attachment" (spec §3, `color_attachments()` /
`depth_attachment()` accessors of the trait). -/
structure FrameBuffer where
  color_attachments : List Attachment
  depth_attachment : Option Attachment
deriving DecidableEq, Repr

/-- Whether texel column `col` / row `row` lies inside the viewport. -/
def insideViewport (vp : Rect) (col row : Nat) : Bool :=
  decide (vp.x ≤ (col : ℤ) ∧ (col : ℤ) < vp.x + vp.w ∧
          vp.y ≤ (row : ℤ) ∧ (row : ℤ) < vp.y + vp.h)

/-- Applies `f` to the texels of one row that lie inside the viewport,
starting at column `col`. -/
def clearRow (vp : Rect) (row : Nat) (f : Pixel → Pixel) :
    Nat → List Pixel → List Pixel
  | _, [] => []
  | col, p :: rest =>
    (if insideViewport vp col row then f p else p)
      :: clearRow vp row f (col + 1) rest

/-- Applies `f` to the texels of a grid that lie inside the viewport,
starting at row `row`. -/
def clearGrid (vp : Rect) (f : Pixel → Pixel) :
    Nat → List (List Pixel) → List (List Pixel)
  | _, [] => []
  | row, r :: rest => clearRow vp row f 0 r :: clearGrid vp f (row + 1) rest

/-- Viewport-scoped texel rewrite of a texture. -/
def GpuTexture.clearWith (t : GpuTexture) (vp : Rect) (f : Pixel → Pixel) :
    GpuTexture := ⟨clearGrid vp f 0 t.data⟩

/-- Modelled from the spec: `GpuFrameBufferTrait::clear`
(framebuffer.rs:201-207).  Each channel is cleared only when its argument
is present: a present `color` rewrites the color channel of every color
attachment inside the viewport; a present `depth`/`stencil` rewrites that
channel of the depth attachment inside the viewport. -/
def FrameBuffer.clear (fb : FrameBuffer) (vp : Rect) (color : Option Color)
    (depth : Option ℚ) (stencil : Option ℤ) : FrameBuffer where
  color_attachments :=
    match color with
    | none => fb.color_attachments
    | some col => fb.color_attachments.map fun a =>
        { a with texture := a.texture.clearWith vp fun p => { p with color := col } }
  depth_attachment :=
    match depth, stencil with
    | none, none => fb.depth_attachment
    | _, _ => fb.depth_attachment.map fun a =>
        { a with texture := a.texture.clearWith vp fun p =>
            { p with
              depth := match depth with | none => p.depth | some d => d
              stencil := match stencil with | none => p.stencil | some s => s } }

/-- The color channel contents of every color attachment. -/
def FrameBuffer.colorChannels (fb : FrameBuffer) : List (List (List Color)) :=
  fb.color_attachments.map fun a => a.texture.data.map fun r => r.map Pixel.color

/-- The depth channel contents of the depth attachment. -/
def FrameBuffer.depthChannel (fb : FrameBuffer) : Option (List (List ℚ)) :=
  fb.depth_attachment.map fun a => a.texture.data.map fun r => r.map Pixel.depth

/-- The stencil channel contents of the depth attachment. -/
def FrameBuffer.stencilChannel (fb : FrameBuffer) : Option (List (List ℤ)) :=
  fb.depth_attachment.map fun a => a.texture.data.map fun r => r.map Pixel.stencil

/-! ## Derived statements and concrete inputs used by the theorems -/

/-- The maximum of a list of heights (`0` for the empty list, which the
theorems exclude). -/
def listMax : List ℚ → ℚ
  | [] => 0
  | h :: t => t.foldl max h

/-- The grid layout `Chunk::update` is claimed to produce: `W*L` vertices
row-major with texture coordinates `(10*x/(W-1), 10*z/(L-1))` at buffer
index `z*W+x`, `2*(W-1)*(L-1)` triangles with the quad-cell split
`(i0,i1,i2)`/`(i2,i3,i0)`, the whole surface being the generated soup after
normal and tangent recomputation. -/
def ChunkGridSpec (c c' : Chunk) : Prop :=
  c'.surface_data = (c.generatedSurface.calculate_normals).calculate_tangents ∧
  c'.surface_data.vertex_buffer.length =
    c.width_point_count * c.length_point_count ∧
  (∀ x z, x < c.width_point_count → z < c.length_point_count →
    (c'.surface_data.vertex_buffer.getD
        (z * c.width_point_count + x) default).tex_coord =
      ⟨10 * (x : ℚ) / ((c.width_point_count - 1 : Nat) : ℚ),
       10 * (z : ℚ) / ((c.length_point_count - 1 : Nat) : ℚ)⟩) ∧
  c'.surface_data.triangles.length =
    2 * ((c.width_point_count - 1) * (c.length_point_count - 1)) ∧
  (∀ x z, x < c.width_point_count - 1 → z < c.length_point_count - 1 →
    c'.surface_data.triangles.getD
        (2 * (z * (c.width_point_count - 1) + x)) default =
      ⟨z * c.width_point_count + x,
       (z + 1) * c.width_point_count + x,
       (z + 1) * c.width_point_count + x + 1⟩ ∧
    c'.surface_data.triangles.getD
        (2 * (z * (c.width_point_count - 1) + x) + 1) default =
      ⟨(z + 1) * c.width_point_count + x + 1,
       z * c.width_point_count + x + 1,
       z * c.width_point_count + x⟩)

/-- The per-chunk facts claimed for a `64×64`, `2×2`-chunk, resolution-8
terrain: 32×32 chunk extent, 256 points per side (even), a zero heightmap
of matching size, and per layer a fully-opaque mask of
`(chunk_width*mask_resolution) * (chunk_length*mask_resolution)` bytes. -/
def BuiltChunkProps (mres : ℚ) (layerCount : Nat) (c : Chunk) : Prop :=
  c.width = 32 ∧ c.length = 32 ∧
  c.width_point_count = 256 ∧ c.length_point_count = 256 ∧
  c.width_point_count % 2 = 0 ∧ c.length_point_count % 2 = 0 ∧
  c.heightmap.length = c.width_point_count * c.length_point_count ∧
  (∀ h ∈ c.heightmap, h = 0) ∧
  c.layers.length = layerCount ∧
  ∀ l ∈ c.layers, ∃ tex, l.mask = some tex ∧
    tex.bytes.length = f32_as_u32 (32 * mres) * f32_as_u32 (32 * mres) ∧
    ∀ byte ∈ tex.bytes, byte = 255

/-- A throwaway chunk for `Option.getD`-style lookups in witnesses. -/
def dummyChunk : Chunk where
  heightmap := []
  layers := []
  position := ⟨0, 0, 0⟩
  width := 0
  length := 0
  width_point_count := 0
  length_point_count := 0
  surface_data := ⟨[], []⟩
  dirty := false

/-- A concrete dirty 2×2 chunk for witnesses. -/
def testChunk : Chunk where
  heightmap := [0, 1, 2, 3]
  layers := []
  position := ⟨0, 0, 0⟩
  width := 4
  length := 4
  width_point_count := 2
  length_point_count := 2
  surface_data := ⟨[], []⟩
  dirty := true

/-- A concrete terrain (one chunk, heights 1/5/3, dirty bounding box) for
witnesses. -/
def sampleTerrain : Terrain where
  width := 10
  length := 20
  base := ⟨⟨1, 2, 3⟩⟩
  chunks := [{ heightmap := [1, 5, 3]
               layers := []
               position := ⟨0, 0, 0⟩
               width := 10
               length := 20
               width_point_count := 2
               length_point_count := 2
               surface_data := ⟨[], []⟩
               dirty := false }]
  bounding_box_dirty := true
  bounding_box := default

/-- A concrete layer with two textures and no mask, for witnesses. -/
def maskedLayerA : Layer where
  diffuse_texture := some ⟨.Rectangle 1 1, .R8, [0], 11⟩
  normal_texture := none
  specular_texture := some ⟨.Rectangle 1 1, .R8, [7], 12⟩
  roughness_texture := none
  height_texture := none
  mask := none

/-- The same layer with a different (present) mask, for witnesses. -/
def maskedLayerB : Layer :=
  { maskedLayerA with mask := some ⟨.Rectangle 2 2, .R8, [1, 2, 3, 4], 99⟩ }

/-- A concrete tiny builder (one 2×2-point chunk) for witnesses. -/
def tinyBuilder : TerrainBuilder :=
  ((((((TerrainBuilder.new ⟨⟨⟨0, 0, 0⟩⟩⟩).with_width 2).with_length
    2).with_width_chunks 1).with_length_chunks 1).with_resolution
    1).with_mask_resolution 1

/-- C3: every id in 0..=5 round-trips through `NodeKind::new` / `NodeKind::id`;
every id ≥ 6 produces an `Err` (the model is total, so no panic is possible);
and `Node::visit` in reading mode propagates the error for an invalid stored
kind id. -/
theorem nodekind_new_roundtrip_and_invalid (id : Nat) :
    (id ≤ 5 → Except.map NodeKind.id (NodeKind.new id) = .ok id) ∧
    (6 ≤ id → NodeKind.new id = .error ("Invalid node kind " ++ toString id)) ∧
    (6 ≤ id → ∀ n : Node,
      n.visit ⟨true, id⟩ = .error ("Invalid node kind " ++ toString id)) := by
  refine ⟨fun h => ?_, fun h => ?_, fun h n => ?_⟩
  · match id, h with
    | 0, _ => rfl
    | 1, _ => rfl
    | 2, _ => rfl
    | 3, _ => rfl
    | 4, _ => rfl
    | 5, _ => rfl
  · match id, h with
    | n + 6, _ => rfl
  · match id, h with
    | n + 6, _ => rfl

/-- Witness for C3 at concrete ids 4 and 7. -/
theorem nodekind_new_roundtrip_and_invalid_witness :
    Except.map NodeKind.id (NodeKind.new 4) = .ok 4 ∧
    NodeKind.new 7 = .error ("Invalid node kind " ++ toString 7) ∧
    (Node.new .Base).visit ⟨true, 7⟩ =
      .error ("Invalid node kind " ++ toString 7) :=
  ⟨(nodekind_new_roundtrip_and_invalid 4).1 (by decide),
   (nodekind_new_roundtrip_and_invalid 7).2.1 (by decide),
   (nodekind_new_roundtrip_and_invalid 7).2.2 (by decide) (Node.new .Base)⟩

/-- C7: `Node::make_copy` returns a node with empty children, `Handle::NONE`
parent, `original` set to the given handle, and every other field (kind,
name, transforms, visibility flags, inverse bind pose, resource reference,
resource-instance flag) copied from the source node. -/
theorem node_make_copy_spec (n : Node) (h : Handle) :
    (n.make_copy h).children = [] ∧
    (n.make_copy h).parent = Handle.NONE ∧
    (n.make_copy h).original = h ∧
    (n.make_copy h).kind = n.kind ∧
    (n.make_copy h).name = n.name ∧
    (n.make_copy h).local_transform = n.local_transform ∧
    (n.make_copy h).global_transform = n.global_transform ∧
    (n.make_copy h).visibility = n.visibility ∧
    (n.make_copy h).global_visibility = n.global_visibility ∧
    (n.make_copy h).inv_bind_pose_transform = n.inv_bind_pose_transform ∧
    (n.make_copy h).resource = n.resource ∧
    (n.make_copy h).is_resource_instance = n.is_resource_instance :=
  ⟨rfl, rfl, rfl, rfl, rfl, rfl, rfl, rfl, rfl, rfl, rfl, rfl⟩

/-- C1: a successful `Chunk::update` leaves the dirty flag false, and a
second `update` on the result changes nothing (the returned chunk — its
generated vertex and index buffers included — is bit-identical). -/
theorem chunk_update_idempotent (c c' : Chunk) (h : c.update = some c') :
    c'.dirty = false ∧ c'.update = some c' := by
  unfold Chunk.update at h
  cases hd : c.dirty with
  | false =>
    rw [hd] at h
    simp only [Bool.false_eq_true, if_false, Option.some.injEq] at h
    subst h
    refine ⟨hd, ?_⟩
    unfold Chunk.update
    rw [hd]
    simp
  | true =>
    rw [hd] at h
    simp only [if_true] at h
    split at h
    · simp only [Option.some.injEq] at h
      subst h
      refine ⟨rfl, ?_⟩
      unfold Chunk.update
      simp
    · exact absurd h (by simp)

/-- Witness for C1 on the concrete dirty 2×2 chunk. -/
theorem chunk_update_idempotent_witness :
    ((Chunk.update testChunk).getD testChunk).dirty = false ∧
    Chunk.update ((Chunk.update testChunk).getD testChunk) =
      some ((Chunk.update testChunk).getD testChunk) :=
  chunk_update_idempotent testChunk ((Chunk.update testChunk).getD testChunk)
    rfl

/-- C2: `Layer::batch_id` does not depend on the mask texture — two layers
agreeing on diffuse/normal/specular/roughness/height produce the same
batch id for every data key, whatever their masks; in particular equal
inputs always hash to equal ids. -/
theorem layer_batch_id_mask_agnostic (data_key : Nat) (l1 l2 : Layer)
    (hdif : l1.diffuse_texture = l2.diffuse_texture)
    (hnor : l1.normal_texture = l2.normal_texture)
    (hspe : l1.specular_texture = l2.specular_texture)
    (hrou : l1.roughness_texture = l2.roughness_texture)
    (hhei : l1.height_texture = l2.height_texture) :
    l1.batch_id data_key = l2.batch_id data_key := by
  unfold Layer.batch_id
  rw [hdif, hnor, hspe, hrou, hhei]

/-- Witness for C2: two layers identical up to a differing mask share the
batch id for key 7. -/
theorem layer_batch_id_mask_agnostic_witness :
    maskedLayerA.mask ≠ maskedLayerB.mask ∧
    maskedLayerA.batch_id 7 = maskedLayerB.batch_id 7 :=
  ⟨by decide,
   layer_batch_id_mask_agnostic 7 maskedLayerA maskedLayerB rfl rfl rfl rfl rfl⟩

/-- C10: `Terrain::raw_copy` copies width/length/chunks, marks the
bounding-box cache dirty and resets it to the default box, so the copy's
first `bounding_box()` call recomputes from the copied chunk data (the
same recomputation the original would make), never serving the inherited
cache. -/
theorem terrain_raw_copy_resets_cache (t : Terrain) :
    t.raw_copy.width = t.width ∧
    t.raw_copy.length = t.length ∧
    t.raw_copy.chunks = t.chunks ∧
    t.raw_copy.bounding_box_dirty = true ∧
    t.raw_copy.bounding_box = default ∧
    t.raw_copy.boundingBox = t.raw_copy.computeBoundingBox ∧
    t.raw_copy.computeBoundingBox = t.computeBoundingBox :=
  ⟨rfl, rfl, rfl, rfl, rfl, rfl, rfl⟩

/-- A viewport-scoped texel rewrite that preserves a projection of each
texel preserves that projection of the whole row. -/
theorem clearRow_map_proj {β : Type} (vp : Rect) (row : Nat)
    (f : Pixel → Pixel) (g : Pixel → β) (hf : ∀ p, g (f p) = g p) :
    ∀ col ps, (clearRow vp row f col ps).map g = ps.map g := by
  intro col ps
  induction ps generalizing col with
  | nil => rfl
  | cons p rest ih =>
    simp only [clearRow, List.map_cons, ih]
    by_cases h : insideViewport vp col row
    · rw [if_pos h, hf]
    · rw [if_neg h]

/-- Grid version of `clearRow_map_proj`. -/
theorem clearGrid_map_proj {β : Type} (vp : Rect) (f : Pixel → Pixel)
    (g : Pixel → β) (hf : ∀ p, g (f p) = g p) :
    ∀ row rows, (clearGrid vp f row rows).map (List.map g) =
      rows.map (List.map g) := by
  intro row rows
  induction rows generalizing row with
  | nil => rfl
  | cons r rest ih =>
    simp only [clearGrid, List.map_cons, ih, clearRow_map_proj vp _ f g hf]

/-- C9: `clear(viewport, None, None, None)` is a no-op, and in general each
channel is untouched whenever its argument is absent: the color contents
survive a clear without `color`, the depth contents survive a clear without
`depth`, and the stencil contents survive a clear without `stencil`. -/
theorem framebuffer_clear_channel_scoped (fb : FrameBuffer) (vp : Rect) :
    fb.clear vp none none none = fb ∧
    (∀ d s, (fb.clear vp none d s).colorChannels = fb.colorChannels) ∧
    (∀ c s, (fb.clear vp c none s).depthChannel = fb.depthChannel) ∧
    (∀ c d, (fb.clear vp c d none).stencilChannel = fb.stencilChannel) := by
  refine ⟨rfl, fun d s => rfl, fun c s => ?_, fun c d => ?_⟩
  · cases s with
    | none => rfl
    | some sv =>
      cases ha : fb.depth_attachment with
      | none =>
        simp [FrameBuffer.clear, FrameBuffer.depthChannel, ha]
      | some a =>
        simp only [FrameBuffer.clear, FrameBuffer.depthChannel, ha,
          Option.map_some']
        congr 1
        exact clearGrid_map_proj vp (fun p => { p with stencil := sv })
          Pixel.depth (fun p => rfl) 0 a.texture.data
  · cases d with
    | none => rfl
    | some dv =>
      cases ha : fb.depth_attachment with
      | none =>
        simp [FrameBuffer.clear, FrameBuffer.stencilChannel, ha]
      | some a =>
        simp only [FrameBuffer.clear, FrameBuffer.stencilChannel, ha,
          Option.map_some']
        congr 1
        exact clearGrid_map_proj vp (fun p => { p with depth := dv })
          Pixel.stencil (fun p => rfl) 0 a.texture.data

/-- The fold step of `Terrain::bounding_box`'s scan is the binary max. -/
theorem boundingBox_fold_step_eq_max :
    (fun (m h : ℚ) => if m < h then h else m) = max := by
  funext m h
  rcases lt_or_ge m h with hlt | hge
  · rw [if_pos hlt, max_eq_right hlt.le]
  · rw [if_neg (not_lt.mpr hge), max_eq_left hge]

/-- C4: on a dirty cache (which is exactly the state after any
height-modifying brush operation), `Terrain::bounding_box` returns the box
from `global_position()` to `global_position() + (width, max height sample,
length)`; and every brush application leaves the cache dirty, so the next
`bounding_box()` call recomputes rather than serving a stale box. -/
theorem terrain_bounding_box_recompute (t : Terrain)
    (hdirty : t.bounding_box_dirty = true)
    (hne : t.heightSamples ≠ [])
    (hlow : ∀ h ∈ t.heightSamples, negF32MAX ≤ h) :
    t.boundingBox = AxisAlignedBoundingBox.from_min_max t.global_position
      (t.global_position +
        Vector3.new t.width (listMax t.heightSamples) t.length) ∧
    ∀ b : Brush, (t.apply_brush b).bounding_box_dirty = true ∧
      (t.apply_brush b).boundingBox = (t.apply_brush b).computeBoundingBox := by
  constructor
  · unfold Terrain.boundingBox
    rw [hdirty]
    simp only [if_true]
    unfold Terrain.computeBoundingBox Terrain.maxHeightFold
    cases hs : t.heightSamples with
    | nil => exact absurd hs hne
    | cons h tl =>
      have hflat : t.chunks.flatMap Chunk.heightmap = h :: tl := hs
      rw [hflat, boundingBox_fold_step_eq_max, List.foldl_cons,
        max_eq_right (hlow h (by rw [hs]; exact List.mem_cons_self h tl))]
      rfl
  · intro b
    refine ⟨rfl, ?_⟩
    unfold Terrain.boundingBox
    simp [Terrain.apply_brush]

/-- Witness for C4 on the concrete one-chunk terrain with heights 1, 5, 3. -/
theorem terrain_bounding_box_recompute_witness :
    sampleTerrain.boundingBox =
      AxisAlignedBoundingBox.from_min_max sampleTerrain.global_position
        (sampleTerrain.global_position +
          Vector3.new sampleTerrain.width
            (listMax sampleTerrain.heightSamples) sampleTerrain.length) :=
  (terrain_bounding_box_recompute sampleTerrain rfl (by decide)
    (by intro h hh
        simp only [Terrain.heightSamples, sampleTerrain,
          List.flatMap_cons, List.flatMap_nil, List.append_nil,
          List.mem_cons, List.not_mem_nil, or_false] at hh
        rcases hh with rfl | rfl | rfl <;> norm_num [negF32MAX])).1

/-- Rust `make_divisible_by_2` always returns an even number (in the form the
assertions of `Chunk::update` test: bitwise AND with 1 is 0). -/
theorem make_divisible_by_2_even (n : Nat) : make_divisible_by_2 n &&& 1 = 0 := by
  unfold make_divisible_by_2
  by_cases h : n &&& 1 = 1
  · rw [if_pos h, Nat.and_one_is_mod] at *
    omega
  · rw [if_neg h, Nat.and_one_is_mod] at *
    omega

/-- A successful `Chunk::update` only rewrites the surface data and the
dirty flag; every other field is returned unchanged. -/
theorem Chunk.update_preserves (c c' : Chunk) (h : c.update = some c') :
    c'.heightmap = c.heightmap ∧ c'.layers = c.layers ∧
    c'.position = c.position ∧ c'.width = c.width ∧ c'.length = c.length ∧
    c'.width_point_count = c.width_point_count ∧
    c'.length_point_count = c.length_point_count := by
  unfold Chunk.update at h
  cases hd : c.dirty with
  | false =>
    rw [hd] at h
    simp only [Bool.false_eq_true, if_false, Option.some.injEq] at h
    subst h
    exact ⟨rfl, rfl, rfl, rfl, rfl, rfl, rfl⟩
  | true =>
    rw [hd] at h
    simp only [if_true] at h
    split at h
    · simp only [Option.some.injEq] at h
      subst h
      exact ⟨rfl, rfl, rfl, rfl, rfl, rfl, rfl⟩
    · exact absurd h (by simp)

/-- Every chunk of a successful `updateChunks` pass comes from a successful
`Chunk::update` of a chunk of the input list. -/
theorem updateChunks_mem (l l' : List Chunk) (h : updateChunks l = some l') :
    ∀ c' ∈ l', ∃ c ∈ l, c.update = some c' := by
  induction l generalizing l' with
  | nil =>
    unfold updateChunks at h
    simp only [Option.some.injEq] at h
    subst h
    intro c' hc'
    exact absurd hc' (List.not_mem_nil c')
  | cons c rest ih =>
    unfold updateChunks at h
    cases hu : c.update with
    | none => rw [hu] at h; exact absurd h (by simp)
    | some c1 =>
      cases hr : updateChunks rest with
      | none => rw [hu, hr] at h; exact absurd h (by simp)
      | some rest1 =>
        rw [hu, hr] at h
        simp only [Option.some.injEq] at h
        subst h
        intro c' hc'
        rcases List.mem_cons.mp hc' with rfl | hmem
        · exact ⟨c, List.mem_cons_self c rest, hu⟩
        · obtain ⟨c0, hc0, hup⟩ := ih rest1 hr c' hmem
          exact ⟨c0, List.mem_cons_of_mem c hc0, hup⟩

/-- C8: every chunk of a terrain produced by `TerrainBuilder::build` has
even `width_point_count` and `length_point_count`, so the
`assert_eq!(count & 1, 0)` assertions at the start of `Chunk::update`
hold and their panic branch is unreachable for builder-produced chunks. -/
theorem builder_chunks_even_point_counts (tb : TerrainBuilder) (t : Terrain)
    (h : tb.build = some t) :
    ∀ c ∈ t.chunks,
      c.width_point_count &&& 1 = 0 ∧ c.length_point_count &&& 1 = 0 := by
  intro c hc
  unfold TerrainBuilder.build Terrain.update at h
  cases hu : updateChunks tb.preTerrain.chunks with
  | none => rw [hu] at h; exact absurd h (by simp)
  | some cs =>
    rw [hu] at h
    simp only [Option.map_some', Option.some.injEq] at h
    subst h
    obtain ⟨c0, hc0, hup⟩ := updateChunks_mem _ _ hu c hc
    obtain ⟨-, -, -, -, -, hw, hl⟩ := Chunk.update_preserves _ _ hup
    rw [hw, hl]
    simp only [TerrainBuilder.preTerrain, List.mem_flatMap,
      List.mem_map, List.mem_range] at hc0
    obtain ⟨z, -, x, -, rfl⟩ := hc0
    exact ⟨make_divisible_by_2_even _, make_divisible_by_2_even _⟩

/-- Witness for C8 on a concrete tiny builder (one chunk, 2×2 points),
instantiated at the built terrain's first chunk. -/
theorem builder_chunks_even_point_counts_witness :
    (((tinyBuilder.build).getD emptyTerrain).chunks.getD
      0 dummyChunk).width_point_count &&& 1 = 0 ∧
    (((tinyBuilder.build).getD emptyTerrain).chunks.getD
      0 dummyChunk).length_point_count &&& 1 = 0 :=
  builder_chunks_even_point_counts tinyBuilder
    ((tinyBuilder.build).getD emptyTerrain) (by with_unfolding_all rfl)
    (((tinyBuilder.build).getD emptyTerrain).chunks.getD 0 dummyChunk)
    (by with_unfolding_all decide)

/-- Length of a `flatMap` over `List.range` whose rows all have length `m`. -/
theorem flatMap_range_length {α : Type} (f : Nat → List α) (m n : Nat)
    (hf : ∀ i, (f i).length = m) :
    ((List.range n).flatMap f).length = n * m := by
  induction n with
  | zero => simp
  | succ k ih =>
    rw [List.range_succ, List.flatMap_append, List.length_append, ih]
    simp [List.flatMap_cons, List.flatMap_nil, hf k, Nat.succ_mul]

/-- Indexing a `flatMap` over `List.range` with uniform row length `m`:
position `z * m + j` is the `j`-th entry of row `z`. -/
theorem flatMap_range_getElem? {α : Type} (f : Nat → List α) (m : Nat)
    (hf : ∀ i, (f i).length = m) :
    ∀ n z j, z < n → j < m →
      ((List.range n).flatMap f)[z * m + j]? = (f z)[j]? := by
  intro n
  induction n with
  | zero => intro z j hz _; exact absurd hz (Nat.not_lt_zero z)
  | succ k ih =>
    intro z j hz hj
    rw [List.range_succ, List.flatMap_append]
    rcases Nat.lt_or_ge z k with hzk | hzk
    · rw [List.getElem?_append, if_pos ?lt]
      · exact ih z j hzk hj
      case lt =>
        rw [flatMap_range_length f m k hf]
        calc z * m + j < z * m + m := by omega
          _ = (z + 1) * m := by ring
          _ ≤ k * m := Nat.mul_le_mul_right m hzk
    · have hz' : z = k := by omega
      subst hz'
      rw [List.getElem?_append_right
        (by rw [flatMap_range_length f m z hf]; omega)]
      rw [flatMap_range_length f m z hf]
      simp only [List.flatMap_cons, List.flatMap_nil, List.append_nil]
      congr 1
      omega

/-- The normal/tangent recomputation pipeline keeps the vertex count. -/
theorem calc_pipeline_length (sd : SurfaceData) :
    ((sd.calculate_normals).calculate_tangents).vertex_buffer.length =
      sd.vertex_buffer.length := by
  simp [SurfaceData.calculate_normals, SurfaceData.calculate_tangents]

/-- The normal/tangent recomputation pipeline keeps every texture
coordinate. -/
theorem calc_pipeline_tex_coord (sd : SurfaceData) (i : Nat)
    (hi : i < sd.vertex_buffer.length) :
    (((sd.calculate_normals).calculate_tangents).vertex_buffer.getD
        i default).tex_coord =
      (sd.vertex_buffer.getD i default).tex_coord := by
  unfold SurfaceData.calculate_tangents SurfaceData.calculate_normals
  simp only [List.length_map, List.length_range, List.getD_eq_getElem?_getD,
    List.getElem?_map, List.getElem?_range hi, Option.map_some',
    Option.getD_some]

/-- C6: a successful update of a dirty chunk regenerates exactly the
claimed grid: `W*L` row-major vertices with texture coordinates
`(10*x/(W-1), 10*z/(L-1))` at index `z*W+x`, `2*(W-1)*(L-1)` triangles
with the quad-cell pairs `(i0,i1,i2)`/`(i2,i3,i0)`, followed by the
normal/tangent recomputation of the finished soup. -/
theorem chunk_update_generates_grid (c c' : Chunk)
    (h : c.update = some c') (hd : c.dirty = true) :
    ChunkGridSpec c c' := by
  unfold Chunk.update at h
  rw [hd] at h
  simp only [if_true] at h
  split at h
  case isFalse => exact absurd h (by simp)
  case isTrue hguard =>
    simp only [Option.some.injEq] at h
    subst h
    have hrow : ∀ i : Nat,
        ((List.range c.width_point_count).map
          (fun x => c.vertexAt x i)).length = c.width_point_count := by
      intro i; simp
    have hgenlen : c.generatedSurface.vertex_buffer.length =
        c.length_point_count * c.width_point_count := by
      unfold Chunk.generatedSurface
      exact flatMap_range_length _ _ _ hrow
    have htrirow : ∀ i : Nat,
        ((List.range (c.width_point_count - 1)).flatMap
          (fun x => c.cellTriangles x i)).length =
          (c.width_point_count - 1) * 2 :=
      fun i => flatMap_range_length _ _ _ (fun _ => rfl)
    refine ⟨rfl, ?_, ?_, ?_, ?_⟩
    · rw [calc_pipeline_length, hgenlen, Nat.mul_comm]
    · intro x z hx hz
      have hi : z * c.width_point_count + x <
          c.generatedSurface.vertex_buffer.length := by
        rw [hgenlen]
        calc z * c.width_point_count + x
            < z * c.width_point_count + c.width_point_count := by omega
          _ = (z + 1) * c.width_point_count := by ring
          _ ≤ c.length_point_count * c.width_point_count :=
            Nat.mul_le_mul_right _ hz
      rw [calc_pipeline_tex_coord _ _ hi]
      unfold Chunk.generatedSurface
      rw [List.getD_eq_getElem?_getD,
        flatMap_range_getElem? _ _ hrow _ z x hz hx]
      simp only [List.getElem?_map, List.getElem?_range hx, Option.map_some',
        Option.getD_some]
      unfold Chunk.vertexAt
      simp only [Vector2.mk.injEq]
      constructor <;> ring
    · show c.generatedSurface.triangles.length = _
      unfold Chunk.generatedSurface
      rw [flatMap_range_length _ _ _ htrirow]
      ring
    · intro x z hx hz
      have hidx0 : 2 * (z * (c.width_point_count - 1) + x) =
          z * ((c.width_point_count - 1) * 2) + (x * 2 + 0) := by ring
      have hidx1 : 2 * (z * (c.width_point_count - 1) + x) + 1 =
          z * ((c.width_point_count - 1) * 2) + (x * 2 + 1) := by ring
      constructor
      · show c.generatedSurface.triangles.getD _ default = _
        unfold Chunk.generatedSurface
        rw [List.getD_eq_getElem?_getD, hidx0,
          flatMap_range_getElem? _ _ htrirow _ z (x * 2 + 0) hz (by omega),
          flatMap_range_getElem? (fun x => c.cellTriangles x z) 2
            (fun _ => rfl) _ x 0 hx (by omega)]
        rfl
      · show c.generatedSurface.triangles.getD _ default = _
        unfold Chunk.generatedSurface
        rw [List.getD_eq_getElem?_getD, hidx1,
          flatMap_range_getElem? _ _ htrirow _ z (x * 2 + 1) hz (by omega),
          flatMap_range_getElem? (fun x => c.cellTriangles x z) 2
            (fun _ => rfl) _ x 1 hx (by omega)]
        rfl

/-- Witness for C6 on the concrete dirty 2×2 chunk. -/
theorem chunk_update_generates_grid_witness :
    ChunkGridSpec testChunk ((Chunk.update testChunk).getD testChunk) :=
  chunk_update_generates_grid testChunk
    ((Chunk.update testChunk).getD testChunk) rfl rfl

/-- The dirty branch of `Chunk::update` when no assertion or bounds panic
fires: the surface is regenerated and the dirty flag cleared. -/
theorem Chunk.update_dirty_eq (c : Chunk) (hd : c.dirty = true)
    (h1 : c.width_point_count &&& 1 = 0) (h2 : c.length_point_count &&& 1 = 0)
    (h3 : 0 < c.width_point_count) (h4 : 0 < c.length_point_count)
    (h5 : c.width_point_count * c.length_point_count ≤ c.heightmap.length) :
    c.update = some { c with
      surface_data :=
        ((c.generatedSurface).calculate_normals).calculate_tangents
      dirty := false } := by
  unfold Chunk.update
  rw [hd]
  simp only [if_true]
  rw [if_pos ⟨h1, h2, h3, h4, h5⟩]

/-- Rust `TerrainBuilder::build` on any builder whose fields are the C5
parameters: the four facts needed, generic in mask resolution, layer list
and base. -/
theorem builder_build_2x2_aux (tb : TerrainBuilder)
    (hW : tb.width = 64) (hL : tb.length = 64)
    (hwc : tb.width_chunks = 2) (hlc : tb.length_chunks = 2)
    (hres : tb.resolution = 8) :
    ∃ t, tb.build = some t ∧ t.chunks.length = 4 ∧
      ∀ c ∈ t.chunks, BuiltChunkProps tb.mask_resolution tb.layers.length c := by
  have hcw : tb.chunk_width = 32 := by
    unfold TerrainBuilder.chunk_width
    rw [hW, hwc]
    norm_num
  have hcl : tb.chunk_length = 32 := by
    unfold TerrainBuilder.chunk_length
    rw [hL, hlc]
    norm_num
  have hwp : tb.chunk_width_points = 256 := by
    unfold TerrainBuilder.chunk_width_points
    rw [hcw, hres, show (32 : ℚ) * 8 = 256 from by norm_num]
    unfold f32_as_u32 make_divisible_by_2
    rw [show ⌊(256 : ℚ)⌋ = 256 from by norm_num]
    decide
  have hlp : tb.chunk_length_points = 256 := by
    unfold TerrainBuilder.chunk_length_points
    rw [hcl, hres, show (32 : ℚ) * 8 = 256 from by norm_num]
    unfold f32_as_u32 make_divisible_by_2
    rw [show ⌊(256 : ℚ)⌋ = 256 from by norm_num]
    decide
  have hupd : ∀ x z : Nat,
      (tb.chunkAt x z).update = some (tb.builtChunkAt x z) := by
    intro x z
    refine Chunk.update_dirty_eq _ rfl ?_ ?_ ?_ ?_ ?_
    · show tb.chunk_width_points &&& 1 = 0
      rw [hwp]
      decide
    · show tb.chunk_length_points &&& 1 = 0
      rw [hlp]
      decide
    · show 0 < tb.chunk_width_points
      rw [hwp]
      norm_num
    · show 0 < tb.chunk_length_points
      rw [hlp]
      norm_num
    · show tb.chunk_width_points * tb.chunk_length_points ≤
        (List.replicate (tb.chunk_length_points * tb.chunk_width_points)
          (0 : ℚ)).length
      rw [List.length_replicate, hwp, hlp]
  have hchunks : tb.preTerrain.chunks =
      [tb.chunkAt 0 0, tb.chunkAt 1 0, tb.chunkAt 0 1, tb.chunkAt 1 1] := by
    show (List.range tb.length_chunks).flatMap
      (fun z => (List.range tb.width_chunks).map fun x => tb.chunkAt x z) = _
    simp only [hwc, hlc]
    rfl
  have hchain : updateChunks tb.preTerrain.chunks =
      some [tb.builtChunkAt 0 0, tb.builtChunkAt 1 0,
            tb.builtChunkAt 0 1, tb.builtChunkAt 1 1] := by
    rw [hchunks]
    simp only [updateChunks, hupd]
  have hprops : ∀ x z : Nat,
      BuiltChunkProps tb.mask_resolution tb.layers.length
        (tb.builtChunkAt x z) := by
    intro x z
    refine ⟨hcw, hcl, hwp, hlp, ?_, ?_, ?_, ?_, ?_, ?_⟩
    · show tb.chunk_width_points % 2 = 0
      rw [hwp]
    · show tb.chunk_length_points % 2 = 0
      rw [hlp]
    · show (List.replicate
          (tb.chunk_length_points * tb.chunk_width_points) (0 : ℚ)).length =
        tb.chunk_width_points * tb.chunk_length_points
      rw [List.length_replicate, Nat.mul_comm]
    · intro h hh
      exact List.eq_of_mem_replicate hh
    · show (tb.layers.map _).length = tb.layers.length
      exact List.length_map _ _
    · intro l hl
      obtain ⟨d, -, rfl⟩ := List.mem_map.mp hl
      have hmw : tb.chunk_mask_width = f32_as_u32 (32 * tb.mask_resolution) := by
        unfold TerrainBuilder.chunk_mask_width
        rw [hcw]
      have hmh : tb.chunk_mask_height = f32_as_u32 (32 * tb.mask_resolution) := by
        unfold TerrainBuilder.chunk_mask_height
        rw [hcl]
      refine ⟨⟨.Rectangle tb.chunk_mask_width tb.chunk_mask_height, .R8,
        List.replicate (tb.chunk_mask_width * tb.chunk_mask_height) 255, 0⟩,
        ?_, ?_, ?_⟩
      · show Texture.from_bytes
            (.Rectangle tb.chunk_mask_width tb.chunk_mask_height) .R8
            (List.replicate (tb.chunk_mask_width * tb.chunk_mask_height) 255) =
          some ⟨.Rectangle tb.chunk_mask_width tb.chunk_mask_height, .R8,
            List.replicate (tb.chunk_mask_width * tb.chunk_mask_height) 255, 0⟩
        unfold Texture.from_bytes
        simp [TexturePixelKind.bytesPerPixel]
      · show (List.replicate
            (tb.chunk_mask_width * tb.chunk_mask_height) 255).length = _
        rw [List.length_replicate, hmw, hmh]
      · intro byte hb
        exact List.eq_of_mem_replicate hb
  refine ⟨{ tb.preTerrain with
            chunks := [tb.builtChunkAt 0 0, tb.builtChunkAt 1 0,
                       tb.builtChunkAt 0 1, tb.builtChunkAt 1 1] },
    ?_, rfl, ?_⟩
  · show (updateChunks tb.preTerrain.chunks).map _ = _
    rw [hchain]
    rfl
  · intro c hc
    simp only [List.mem_cons, List.not_mem_nil, or_false] at hc
    rcases hc with rfl | rfl | rfl | rfl <;> exact hprops _ _

/-- C5: building a terrain with `width=64`, `length=64`, `width_chunks=2`,
`length_chunks=2`, `resolution=8` produces exactly 4 chunks, each 32×32
world units with 256 (even) points per side, a zero heightmap of
`width_point_count * length_point_count` samples, and per layer a mask of
`(chunk_width*mask_resolution) * (chunk_length*mask_resolution)` bytes all
equal to 255. -/
theorem terrain_builder_build_2x2 (mres : ℚ) (layers : List LayerDefinition)
    (base : BaseBuilder) :
    ∃ t,
      ((((((((TerrainBuilder.new base).with_width 64).with_length
        64).with_width_chunks 2).with_length_chunks 2).with_resolution
        8).with_mask_resolution mres).with_layers layers).build = some t ∧
      t.chunks.length = 4 ∧
      ∀ c ∈ t.chunks, BuiltChunkProps mres layers.length c :=
  builder_build_2x2_aux _ rfl rfl rfl rfl rfl

/-- Witness for C5: with mask resolution 16 and no layers, the build
succeeds with 4 chunks. -/
theorem terrain_builder_build_2x2_witness :
    ∃ t,
      ((((((((TerrainBuilder.new ⟨⟨⟨0, 0, 0⟩⟩⟩).with_width 64).with_length
        64).with_width_chunks 2).with_length_chunks 2).with_resolution
        8).with_mask_resolution 16).with_layers []).build = some t ∧
      t.chunks.length = 4 := by
  obtain ⟨t, h1, h2, -⟩ := terrain_builder_build_2x2 16 [] ⟨⟨⟨0, 0, 0⟩⟩⟩
  exact ⟨t, h1, h2⟩

end Fyrox
